import Mathlib

/-!
Shallow embedding of src/pxeboot_hpilo.py (Ansible module pxeboot_hpilo).

The run_module procedure is a single sequential routine talking to one
HP iLO management controller through the python-hpilo client.  We model
the client as a record of outcomes for each of the calls run_module can
make (session construction, the two state queries, the first and the
possible second set_one_time_boot attempt, press_pwr_btn), and run_module
as a pure function from those outcomes to the exit of the module
(exit_json or fail_json) together with a trace of the device calls it
issued and the sleeps it executed.
-/

/-- Outcome of one call to ilo.set_one_time_boot.  The inner except clause
of the code (line 143) catches exactly hpilo.IloError; any other exception
propagates to the outer handler, so the two failure classes are kept
distinct. -/
inductive SetBootOutcome where
  | ok : SetBootOutcome
  | iloError : String → SetBootOutcome
  | otherError : String → SetBootOutcome
deriving DecidableEq

/-- The outcomes the device/client would give to each call run_module can
make, in program order: hpilo.Ilo construction (line 129), the power query
(line 132), the boot-mode query (line 134), the first and second
set_one_time_boot attempts (lines 141 and 145), press_pwr_btn (line 152).
An Except.error is an exception carrying str(e). -/
structure IloBehavior where
  connect : Except String Unit
  get_host_power_status : Except String String
  get_one_time_boot : Except String String
  set_one_time_boot_first : SetBootOutcome
  set_one_time_boot_second : SetBootOutcome
  press_pwr_btn : Except String Unit

/-- Trace of the device calls issued during one invocation: how many times
each operation was called, how many set_one_time_boot calls succeeded, and
the sequence of time.sleep durations executed. -/
structure OpTrace where
  getPowerCalls : Nat
  getBootCalls : Nat
  setBootCalls : Nat
  setBootSuccesses : Nat
  pressPwrCalls : Nat
  sleeps : List Nat
deriving DecidableEq

def emptyTrace : OpTrace := ⟨0, 0, 0, 0, 0, []⟩

/-- The result dict of the module (lines 102-106 seed it; lines 156-158
update it on the success path only). -/
structure ModuleResult where
  changed : Bool
  power_status : String
  one_time_boot_status : String
deriving DecidableEq

/-- The seeded defaults of lines 102-106. -/
def initResult : ModuleResult := ⟨false, "UNKNOWN", "UNKNOWN"⟩

/-- How run_module terminates: module.exit_json with the result dict
(line 161), module.fail_json with str(e) and the result dict from the
outer handler (line 164), module.fail_json naming the missing library
(line 116), or the fail_json issued by AnsibleModule argument validation
during its construction (lines 109-112). -/
inductive ModuleExit where
  | exitJson : ModuleResult → ModuleExit
  | failJson : String → ModuleResult → ModuleExit
  | failMissingLib : String → ModuleExit
  | failInvalidParams : ModuleExit
deriving DecidableEq

/-- Lines 138-146: try set_one_time_boot(device); on hpilo.IloError,
time.sleep(60) and try once more; a second failure (of either class), or
a non-IloError first failure, propagates as an exception.  Returns the
propagated message or ok, together with the updated trace. -/
def attemptSetBoot (ilo : IloBehavior) (t : OpTrace) : Except String Unit × OpTrace :=
  match ilo.set_one_time_boot_first with
  | SetBootOutcome.ok =>
      (Except.ok (), { t with setBootCalls := t.setBootCalls + 1,
                              setBootSuccesses := t.setBootSuccesses + 1 })
  | SetBootOutcome.otherError m =>
      (Except.error m, { t with setBootCalls := t.setBootCalls + 1 })
  | SetBootOutcome.iloError _ =>
      match ilo.set_one_time_boot_second with
      | SetBootOutcome.ok =>
          (Except.ok (), { t with setBootCalls := t.setBootCalls + 2,
                                  setBootSuccesses := t.setBootSuccesses + 1,
                                  sleeps := t.sleeps ++ [60] })
      | SetBootOutcome.iloError m =>
          (Except.error m, { t with setBootCalls := t.setBootCalls + 2,
                                    sleeps := t.sleeps ++ [60] })
      | SetBootOutcome.otherError m =>
          (Except.error m, { t with setBootCalls := t.setBootCalls + 2,
                                    sleeps := t.sleeps ++ [60] })

/-- run_module of src/pxeboot_hpilo.py, lines 91-164.  hasHpilo is the
HAS_HPILO flag set by the import attempt (lines 77-83); paramsValid
abstracts the argument validation the AnsibleModule constructor performs
(lines 109-112, the boundary layer of spec section 4.1) before the
HAS_HPILO check of line 115; checkMode is module.check_mode; device is
the desired one-time boot mode parameter.  The result dict is written
only on the success path (lines 156-158): the outer except clause reports
str(e) together with the still-seeded defaults. -/
def run_module (hasHpilo : Bool) (paramsValid : Bool) (checkMode : Bool)
    (device : String) (ilo : IloBehavior) : ModuleExit × OpTrace :=
  if !paramsValid then (ModuleExit.failInvalidParams, emptyTrace)
  else if !hasHpilo then (ModuleExit.failMissingLib "python-hpilo", emptyTrace)
  else
    match ilo.connect with
    | Except.error e => (ModuleExit.failJson e initResult, emptyTrace)
    | Except.ok _ =>
      let t1 : OpTrace := { emptyTrace with getPowerCalls := 1 }
      match ilo.get_host_power_status with
      | Except.error e => (ModuleExit.failJson e initResult, t1)
      | Except.ok power_status =>
        let t2 : OpTrace := { t1 with getBootCalls := 1 }
        match ilo.get_one_time_boot with
        | Except.error e => (ModuleExit.failJson e initResult, t2)
        | Except.ok one_time_boot_status =>
          if checkMode then
            (ModuleExit.exitJson ⟨false, power_status, one_time_boot_status⟩, t2)
          else if device ≠ one_time_boot_status then
            match attemptSetBoot ilo t2 with
            | (Except.error e, t3) => (ModuleExit.failJson e initResult, t3)
            | (Except.ok _, t3) =>
              if power_status = "OFF" then
                let t4 : OpTrace := { t3 with pressPwrCalls := t3.pressPwrCalls + 1 }
                match ilo.press_pwr_btn with
                | Except.error e => (ModuleExit.failJson e initResult, t4)
                | Except.ok _ => (ModuleExit.exitJson ⟨true, "BOOTING", device⟩, t4)
              else (ModuleExit.exitJson ⟨true, power_status, device⟩, t3)
          else
            (ModuleExit.exitJson ⟨false, power_status, one_time_boot_status⟩, t2)

/-- The result fields the orchestrator sees in the exit: exit_json and the
outer fail_json pass the result dict; the two early fail_json calls pass
no result fields, for which Ansible reports changed=false and no statuses
(rendered here as the seeded defaults). -/
def reported : ModuleExit → ModuleResult
  | ModuleExit.exitJson r => r
  | ModuleExit.failJson _ r => r
  | ModuleExit.failMissingLib _ => initResult
  | ModuleExit.failInvalidParams => initResult

/-- Live device state, for sequential-composition (idempotence) claims. -/
structure DeviceState where
  power : String
  oneTimeBoot : String
deriving DecidableEq

/-- A fault-free device in state s: construction and every call succeed,
the queries report the state. -/
def behaviorOf (s : DeviceState) : IloBehavior :=
  ⟨Except.ok (), Except.ok s.power, Except.ok s.oneTimeBoot,
   SetBootOutcome.ok, SetBootOutcome.ok, Except.ok ()⟩

/-- Device state after one non-check run against a fault-free device: a
successful set_one_time_boot(device) stores device as the one-time boot
mode, and pressing the power button powers the machine on. -/
def nextState (device : String) (s : DeviceState) : DeviceState :=
  let r := run_module true true false device (behaviorOf s)
  ⟨if 0 < r.2.pressPwrCalls then "ON" else s.power,
   if 0 < r.2.setBootSuccesses then device else s.oneTimeBoot⟩

/-- Python str.upper for the ASCII strings involved (charwise). -/
def pyUpper (s : String) : String := String.mk (s.data.map Char.toUpper)

/-- Python str.replace(old, new) for single-character old and new. -/
def pyReplaceChar (old new : Char) (s : String) : String :=
  String.mk (s.data.map (fun c => if c = old then new else c))

/-- Line 122: the dynamic attribute name handed to getattr(hpilo.ssl, ...):
the string PROTOCOL_ prepended to the ssl_version parameter uppercased and
with every V then replaced by v. -/
def protocolName (ssl_version : String) : String :=
  "PROTOCOL_" ++ pyReplaceChar 'V' 'v' (pyUpper ssl_version)

/-- Modelled from the spec: the explicit lookup table of design-note
section 9 mapping each allowed ssl_version choice to its transport
constant name; the reference the dynamic transformation is compared to. -/
def protocolTable (s : String) : Option String :=
  if s = "SSLv3" then some "PROTOCOL_SSLv3"
  else if s = "SSLv23" then some "PROTOCOL_SSLv23"
  else if s = "TLSv1" then some "PROTOCOL_TLSv1"
  else if s = "TLSv1_1" then some "PROTOCOL_TLSv1_1"
  else if s = "TLSv1_2" then some "PROTOCOL_TLSv1_2"
  else none

/-- A behavior where every device call succeeds: powered on, one-time boot
mode normal. -/
def iloAllOk : IloBehavior :=
  ⟨Except.ok (), Except.ok "ON", Except.ok "normal",
   SetBootOutcome.ok, SetBootOutcome.ok, Except.ok ()⟩

/-- Machine off, boot mode normal; the first set attempt raises
hpilo.IloError, the retry succeeds, press_pwr_btn then raises. -/
def c3Ilo : IloBehavior :=
  ⟨Except.ok (), Except.ok "OFF", Except.ok "normal",
   SetBootOutcome.iloError "busy", SetBootOutcome.ok, Except.error "power button stuck"⟩

/-- Machine on, boot mode normal; the first set attempt raises
hpilo.IloError and the retry succeeds. -/
def c3RetryOkIlo : IloBehavior :=
  ⟨Except.ok (), Except.ok "ON", Except.ok "normal",
   SetBootOutcome.iloError "busy", SetBootOutcome.ok, Except.ok ()⟩

/-- Machine off, boot mode normal, every call succeeds. -/
def bootOffIlo : IloBehavior :=
  ⟨Except.ok (), Except.ok "OFF", Except.ok "normal",
   SetBootOutcome.ok, SetBootOutcome.ok, Except.ok ()⟩

/-- Machine off, boot mode normal; set succeeds, press_pwr_btn raises. -/
def c5Ilo : IloBehavior :=
  ⟨Except.ok (), Except.ok "OFF", Except.ok "normal",
   SetBootOutcome.ok, SetBootOutcome.ok, Except.error "power on failed"⟩

/-- Power query succeeds with ON, boot-mode query raises. -/
def c6Ilo : IloBehavior :=
  ⟨Except.ok (), Except.ok "ON", Except.error "boot query failed",
   SetBootOutcome.ok, SetBootOutcome.ok, Except.ok ()⟩

/-- Session construction raises. -/
def connectFailIlo : IloBehavior :=
  ⟨Except.error "connection refused", Except.ok "ON", Except.ok "normal",
   SetBootOutcome.ok, SetBootOutcome.ok, Except.ok ()⟩

/-- C1: when the desired boot mode equals the mode the device currently
reports, a non-check run exits successfully with changed=false, issues no
set_one_time_boot call and no press_pwr_btn call (the trace records only
the two queries); and a second run with the same desired mode immediately
after any successful first run against a fault-free device reports
changed=false (idempotence). -/
theorem c1_noop_and_idempotent :
    (∀ (p b : String) (s1 s2 : SetBootOutcome) (pr : Except String Unit),
        run_module true true false b ⟨Except.ok (), Except.ok p, Except.ok b, s1, s2, pr⟩
          = (ModuleExit.exitJson ⟨false, p, b⟩, ⟨1, 1, 0, 0, 0, []⟩))
    ∧ (∀ (device : String) (s : DeviceState),
        (run_module true true false device (behaviorOf (nextState device s))).1
          = ModuleExit.exitJson ⟨false, (nextState device s).power, device⟩) := by
  constructor
  · intro p b s1 s2 pr
    simp [run_module, emptyTrace]
  · intro device s
    by_cases hdb : device = s.oneTimeBoot <;>
      by_cases hp : s.power = "OFF" <;>
        simp [nextState, run_module, behaviorOf, attemptSetBoot, emptyTrace, hdb, hp]

/-- C2: in check mode the run never calls set_one_time_boot or
press_pwr_btn and never sleeps, the reported changed is false on every
path, and whenever the session and both queries succeed the run exits
successfully reporting exactly the two queried status values, even when
the desired mode differs from the current one. -/
theorem c2_check_mode_never_mutates :
    ∀ (ilo : IloBehavior) (device : String),
      ((run_module true true true device ilo).2.setBootCalls = 0
        ∧ (run_module true true true device ilo).2.pressPwrCalls = 0
        ∧ (run_module true true true device ilo).2.sleeps = []
        ∧ (reported (run_module true true true device ilo).1).changed = false)
      ∧ ∀ (p b : String), ilo.connect = Except.ok () →
          ilo.get_host_power_status = Except.ok p →
          ilo.get_one_time_boot = Except.ok b →
          (run_module true true true device ilo).1 = ModuleExit.exitJson ⟨false, p, b⟩ := by
  intro ilo device
  obtain ⟨c, gp, gb, s1, s2, pr⟩ := ilo
  constructor
  · cases c <;> cases gp <;> cases gb <;>
      simp [run_module, reported, initResult, emptyTrace]
  · intro p b hc hp hb
    simp only at hc hp hb
    subst hc hp hb
    simp [run_module]

/-- C2 witness: a concrete check-mode run with the desired mode network
and current mode normal exits with the observed values and changed=false. -/
theorem c2_check_mode_never_mutates_witness :
    (run_module true true true "network" iloAllOk).1
      = ModuleExit.exitJson ⟨false, "ON", "normal"⟩ :=
  (c2_check_mode_never_mutates iloAllOk "network").2 "ON" "normal" rfl rfl rfl

/-- C3 counterexample: first set attempt fails with hpilo.IloError, the
single retry after the 60-second sleep succeeds, yet the overall
operation fails (the subsequent power-on raises) and reports
changed=false, refuting that a successful retry makes the overall
operation succeed with changed=true. -/
theorem c3_counterexample :
    (run_module true true false "network" c3Ilo).2.sleeps = [60]
      ∧ (run_module true true false "network" c3Ilo).2.setBootCalls = 2
      ∧ 0 < (run_module true true false "network" c3Ilo).2.setBootSuccesses
      ∧ (run_module true true false "network" c3Ilo).1
          = ModuleExit.failJson "power button stuck" initResult
      ∧ (reported (run_module true true false "network" c3Ilo).1).changed = false := by
  decide

/-- C3 amended: when the desired mode differs from the current one and the
first set attempt raises hpilo.IloError, the run sleeps exactly 60 time
units and issues exactly one retry (two set calls in total, never three);
if the retry succeeds the run exits with changed=true provided any
required power-on also succeeds; if the retry fails with either error
class the run fails reporting changed=false; a non-IloError failure of
the first attempt is never retried (one set call, no sleep). -/
theorem c3_retry_law (device p b : String) (ilo : IloBehavior)
    (hc : ilo.connect = Except.ok ())
    (hp : ilo.get_host_power_status = Except.ok p)
    (hb : ilo.get_one_time_boot = Except.ok b)
    (hne : device ≠ b) :
    (∀ m, ilo.set_one_time_boot_first = SetBootOutcome.iloError m →
      ((run_module true true false device ilo).2.sleeps = [60]
        ∧ (run_module true true false device ilo).2.setBootCalls = 2)
      ∧ (ilo.set_one_time_boot_second = SetBootOutcome.ok →
          (p = "OFF" → ilo.press_pwr_btn = Except.ok () →
            (run_module true true false device ilo).1
              = ModuleExit.exitJson ⟨true, "BOOTING", device⟩)
          ∧ (p ≠ "OFF" →
            (run_module true true false device ilo).1
              = ModuleExit.exitJson ⟨true, p, device⟩))
      ∧ (∀ m2, (ilo.set_one_time_boot_second = SetBootOutcome.iloError m2
              ∨ ilo.set_one_time_boot_second = SetBootOutcome.otherError m2) →
          (run_module true true false device ilo).1 = ModuleExit.failJson m2 initResult
            ∧ (reported (run_module true true false device ilo).1).changed = false))
    ∧ (∀ m, ilo.set_one_time_boot_first = SetBootOutcome.otherError m →
        (run_module true true false device ilo).1 = ModuleExit.failJson m initResult
          ∧ (run_module true true false device ilo).2.setBootCalls = 1
          ∧ (run_module true true false device ilo).2.sleeps = []) := by
  obtain ⟨c, gp, gb, s1, s2, pr⟩ := ilo
  simp only at hc hp hb
  subst hc hp hb
  constructor
  · intro m h1
    simp only at h1
    subst h1
    refine ⟨?_, ?_, ?_⟩
    · cases s2 <;> by_cases hoff : p = "OFF" <;> cases pr <;>
        simp [run_module, attemptSetBoot, emptyTrace, hne, hoff]
    · intro h2
      simp only at h2
      subst h2
      constructor
      · intro hoff hpr
        simp only at hpr
        subst hoff hpr
        simp [run_module, attemptSetBoot, emptyTrace, hne]
      · intro hoff
        simp [run_module, attemptSetBoot, emptyTrace, hne, hoff]
    · intro m2 h2
      rcases h2 with h2 | h2
      all_goals simp only at h2
      all_goals subst h2
      all_goals simp [run_module, attemptSetBoot, emptyTrace, hne, reported, initResult]
  · intro m h1
    simp only at h1
    subst h1
    simp [run_module, attemptSetBoot, emptyTrace, hne]

/-- C3 witness: concrete run on a powered-on host whose first set attempt
raises hpilo.IloError and whose retry succeeds: one 60-second sleep and a
successful exit with changed=true. -/
theorem c3_retry_law_witness :
    (run_module true true false "network" c3RetryOkIlo).2.sleeps = [60]
      ∧ (run_module true true false "network" c3RetryOkIlo).1
          = ModuleExit.exitJson ⟨true, "ON", "network"⟩ := by
  have h := (c3_retry_law "network" "ON" "normal" c3RetryOkIlo rfl rfl rfl
      (by decide)).1 "busy" rfl
  exact ⟨h.1.1, (h.2.1 rfl).2 (by decide)⟩

/-- C4: press_pwr_btn is called if and only if a set_one_time_boot call
succeeded in this invocation and the power query returned exactly OFF;
and on a successful exit in which press_pwr_btn was called the reported
power_status is the synthetic value BOOTING while the power query was
issued only once (no re-query). -/
theorem c4_power_on_iff_mutation_and_off :
    ∀ (checkMode : Bool) (device : String) (ilo : IloBehavior),
      (0 < (run_module true true checkMode device ilo).2.pressPwrCalls
        ↔ 0 < (run_module true true checkMode device ilo).2.setBootSuccesses
            ∧ ilo.get_host_power_status = Except.ok "OFF")
      ∧ (∀ r, (run_module true true checkMode device ilo).1 = ModuleExit.exitJson r →
          0 < (run_module true true checkMode device ilo).2.pressPwrCalls →
          r.power_status = "BOOTING"
            ∧ (run_module true true checkMode device ilo).2.getPowerCalls = 1) := by
  intro checkMode device ilo
  obtain ⟨c, gp, gb, s1, s2, pr⟩ := ilo
  cases c with
  | error e => simp [run_module, emptyTrace]
  | ok u =>
    cases gp with
    | error e => simp [run_module, emptyTrace]
    | ok p =>
      cases gb with
      | error e => simp [run_module, emptyTrace]
      | ok b =>
        cases checkMode with
        | true => simp [run_module, emptyTrace]
        | false =>
          by_cases hdb : device = b
          · simp [run_module, emptyTrace, hdb]
          · by_cases hoff : p = "OFF"
            · subst hoff
              cases s1 <;> cases s2 <;> cases pr <;>
                simp [run_module, attemptSetBoot, emptyTrace, hdb]
            · cases s1 <;> cases s2 <;> cases pr <;>
                simp [run_module, attemptSetBoot, emptyTrace, hdb, hoff]

/-- C4 witness: on a powered-off host needing a mutation, the run exits
with power_status BOOTING and a single power query. -/
theorem c4_power_on_witness :
    (ModuleResult.power_status ⟨true, "BOOTING", "network"⟩ = "BOOTING")
      ∧ (run_module true true false "network" bootOffIlo).2.getPowerCalls = 1 :=
  (c4_power_on_iff_mutation_and_off false "network" bootOffIlo).2
    ⟨true, "BOOTING", "network"⟩ (by decide) (by decide)

/-- C5 counterexample: the set call succeeds, press_pwr_btn then raises,
and the failure output carries changed=false and
one_time_boot_status=UNKNOWN, refuting that it reports changed=true and
the desired mode. -/
theorem c5_counterexample :
    0 < (run_module true true false "network" c5Ilo).2.setBootSuccesses
      ∧ 0 < (run_module true true false "network" c5Ilo).2.pressPwrCalls
      ∧ (run_module true true false "network" c5Ilo).1
          = ModuleExit.failJson "power on failed" ⟨false, "UNKNOWN", "UNKNOWN"⟩
      ∧ (reported (run_module true true false "network" c5Ilo).1).changed = false
      ∧ (reported (run_module true true false "network" c5Ilo).1).one_time_boot_status
          = "UNKNOWN" := by
  decide

/-- C5 amended: when press_pwr_btn fails after a successful mutation the
operation fails; the mutation is not retracted on the device (the
successful set call is in the trace), but the failure output reports the
seeded defaults changed=false and statuses UNKNOWN, because the result
dict is only updated after the whole chain completes. -/
theorem c5_power_on_failure_reports_defaults (device b m : String) (ilo : IloBehavior)
    (hc : ilo.connect = Except.ok ())
    (hp : ilo.get_host_power_status = Except.ok "OFF")
    (hb : ilo.get_one_time_boot = Except.ok b)
    (hne : device ≠ b)
    (h1 : ilo.set_one_time_boot_first = SetBootOutcome.ok)
    (hpr : ilo.press_pwr_btn = Except.error m) :
    (run_module true true false device ilo).1 = ModuleExit.failJson m initResult
      ∧ (run_module true true false device ilo).2.setBootSuccesses = 1
      ∧ (run_module true true false device ilo).2.pressPwrCalls = 1 := by
  obtain ⟨c, gp, gb, s1, s2, pr⟩ := ilo
  simp only at hc hp hb h1 hpr
  subst hc hp hb h1 hpr
  simp [run_module, attemptSetBoot, emptyTrace, hne]

/-- C5 witness: the amended statement evaluated on the concrete failing
power-on behavior. -/
theorem c5_power_on_failure_witness :
    (run_module true true false "network" c5Ilo).1
        = ModuleExit.failJson "power on failed" initResult
      ∧ (run_module true true false "network" c5Ilo).2.setBootSuccesses = 1
      ∧ (run_module true true false "network" c5Ilo).2.pressPwrCalls = 1 :=
  c5_power_on_failure_reports_defaults "network" "normal" "power on failed" c5Ilo
    rfl rfl rfl (by decide) rfl rfl

/-- C6 counterexample: the power query succeeds with ON, the boot-mode
query then raises, and the failure output carries power_status UNKNOWN
rather than the queried ON, refuting that an already-obtained query value
is preserved in the failure output. -/
theorem c6_counterexample :
    (run_module true true false "network" c6Ilo).2.getPowerCalls = 1
      ∧ (run_module true true false "network" c6Ilo).1
          = ModuleExit.failJson "boot query failed" ⟨false, "UNKNOWN", "UNKNOWN"⟩
      ∧ (reported (run_module true true false "network" c6Ilo).1).power_status ≠ "ON" := by
  decide

/-- C6 amended: when the power query succeeds and the boot-mode query then
fails, the failure output carries the seeded defaults: power_status is
UNKNOWN, not the queried value; already-obtained query results are
discarded on every failure path. -/
theorem c6_query_results_not_preserved (checkMode : Bool) (device p m : String)
    (ilo : IloBehavior)
    (hc : ilo.connect = Except.ok ())
    (hp : ilo.get_host_power_status = Except.ok p)
    (hb : ilo.get_one_time_boot = Except.error m) :
    (run_module true true checkMode device ilo).1 = ModuleExit.failJson m initResult
      ∧ (reported (run_module true true checkMode device ilo).1).power_status
          = "UNKNOWN" := by
  obtain ⟨c, gp, gb, s1, s2, pr⟩ := ilo
  simp only at hc hp hb
  subst hc hp hb
  simp [run_module, reported, initResult]

/-- C6 witness: the amended statement evaluated on the concrete behavior
whose boot-mode query raises after a successful power query. -/
theorem c6_query_results_witness :
    (run_module true true false "network" c6Ilo).1
        = ModuleExit.failJson "boot query failed" initResult
      ∧ (reported (run_module true true false "network" c6Ilo).1).power_status
          = "UNKNOWN" :=
  c6_query_results_not_preserved false "network" "ON" "boot query failed" c6Ilo rfl rfl rfl

/-- C7 counterexample: with the hpilo library missing and an invalid
parameter set, the exit is the argument-validation failure issued by the
AnsibleModule constructor, not the missing-library failure: the
missing-capability error is not reported before parameter validation. -/
theorem c7_counterexample :
    (run_module false false false "network" iloAllOk).1 = ModuleExit.failInvalidParams
      ∧ ∀ (m : String),
          (run_module false false false "network" iloAllOk).1
            ≠ ModuleExit.failMissingLib m := by
  constructor
  · decide
  · intro m h
    simp [run_module] at h

/-- C7 amended: with valid parameters and the hpilo library missing, the
run fails with the distinct missing-library error naming python-hpilo,
before any parameter is read and before any device call (the trace is
empty); the failure comes after the argument validation the AnsibleModule
constructor performs, not before it. -/
theorem c7_missing_library (checkMode : Bool) (device : String) (ilo : IloBehavior) :
    run_module false true checkMode device ilo
      = (ModuleExit.failMissingLib "python-hpilo", emptyTrace) := by
  simp [run_module]

/-- C8: when the desired mode differs from the queried one and the set
call succeeds on the first attempt or on the retry, any successful exit
reports changed=true with one_time_boot_status equal to the desired mode,
and the boot-mode query was issued only once (the desired value is
trusted, no re-query). -/
theorem c8_mutation_success_reports_desired (device p b : String) (ilo : IloBehavior)
    (hc : ilo.connect = Except.ok ())
    (hp : ilo.get_host_power_status = Except.ok p)
    (hb : ilo.get_one_time_boot = Except.ok b)
    (hne : device ≠ b)
    (hset : ilo.set_one_time_boot_first = SetBootOutcome.ok
          ∨ ((∃ m, ilo.set_one_time_boot_first = SetBootOutcome.iloError m)
              ∧ ilo.set_one_time_boot_second = SetBootOutcome.ok)) :
    (∀ r, (run_module true true false device ilo).1 = ModuleExit.exitJson r →
        r.changed = true ∧ r.one_time_boot_status = device)
      ∧ (run_module true true false device ilo).2.getBootCalls = 1 := by
  obtain ⟨c, gp, gb, s1, s2, pr⟩ := ilo
  simp only at hc hp hb hset
  subst hc hp hb
  rcases hset with h1 | ⟨⟨m, h1⟩, h2⟩
  · subst h1
    by_cases hoff : p = "OFF"
    · subst hoff
      cases pr <;>
        simp [run_module, attemptSetBoot, emptyTrace, hne]
    · cases pr <;>
        simp [run_module, attemptSetBoot, emptyTrace, hne, hoff]
  · subst h1 h2
    by_cases hoff : p = "OFF"
    · subst hoff
      cases pr <;>
        simp [run_module, attemptSetBoot, emptyTrace, hne]
    · cases pr <;>
        simp [run_module, attemptSetBoot, emptyTrace, hne, hoff]

/-- C8 witness: a powered-on host with current mode normal and desired
mode network exits with changed=true, the desired mode, and one boot-mode
query. -/
theorem c8_mutation_success_witness :
    (ModuleResult.changed ⟨true, "ON", "network"⟩ = true
        ∧ ModuleResult.one_time_boot_status ⟨true, "ON", "network"⟩ = "network")
      ∧ (run_module true true false "network" iloAllOk).2.getBootCalls = 1 := by
  have h := c8_mutation_success_reports_desired "network" "ON" "normal" iloAllOk
      rfl rfl rfl (by decide) (Or.inl rfl)
  exact ⟨h.1 ⟨true, "ON", "network"⟩ (by decide), h.2⟩

/-- C9: every exit produced by the outer exception handler carries exactly
the seeded defaults changed=false, power_status=UNKNOWN,
one_time_boot_status=UNKNOWN, no matter how many steps had already
succeeded, because the result dict is only updated after the whole chain
completes. -/
theorem c9_exception_handler_reports_seeded_defaults :
    ∀ (checkMode : Bool) (device : String) (ilo : IloBehavior) (m : String)
      (r : ModuleResult),
      (run_module true true checkMode device ilo).1 = ModuleExit.failJson m r →
      r = initResult := by
  intro checkMode device ilo m r h
  obtain ⟨c, gp, gb, s1, s2, pr⟩ := ilo
  cases c with
  | error e => simp [run_module] at h; exact h.2.symm
  | ok u =>
    cases gp with
    | error e => simp [run_module] at h; exact h.2.symm
    | ok p =>
      cases gb with
      | error e => simp [run_module] at h; exact h.2.symm
      | ok b =>
        cases checkMode with
        | true => simp [run_module] at h
        | false =>
          by_cases hdb : device = b
          · simp [run_module, hdb] at h
          · by_cases hoff : p = "OFF"
            · cases s1 <;> cases s2 <;> cases pr <;>
                simp [run_module, attemptSetBoot, hdb, hoff] at h <;>
                exact h.2.symm
            · cases s1 <;> cases s2 <;> cases pr <;>
                simp [run_module, attemptSetBoot, hdb, hoff] at h <;>
                exact h.2.symm

/-- C9 witness: a run whose session construction raises reports exactly
the seeded defaults. -/
theorem c9_exception_handler_witness :
    (⟨false, "UNKNOWN", "UNKNOWN"⟩ : ModuleResult) = initResult :=
  c9_exception_handler_reports_seeded_defaults false "network" connectFailIlo
    "connection refused" ⟨false, "UNKNOWN", "UNKNOWN"⟩ (by decide)

/-- C10: for each of the five allowed ssl_version values, the dynamic
attribute-name transformation of line 122 agrees with the explicit lookup
table stated in the spec. -/
theorem c10_protocol_transform_matches_table :
    protocolTable "SSLv3" = some (protocolName "SSLv3")
      ∧ protocolTable "SSLv23" = some (protocolName "SSLv23")
      ∧ protocolTable "TLSv1" = some (protocolName "TLSv1")
      ∧ protocolTable "TLSv1_1" = some (protocolName "TLSv1_1")
      ∧ protocolTable "TLSv1_2" = some (protocolName "TLSv1_2") := by
  decide
